import Mathlib

/-!
Shallow embedding of the steganography utility library
(`src/utils/steganography_util.cc`).

The program hides a "secret" image inside a "cover" image by storing the
secret's high nibbles in the cover's low nibbles, per 8-bit RGB channel.
Files are classified from an 8-byte magic-number header; merged output is
always written as PNG; unmerged output format follows the out-path's
extension.

Machine integers are modelled as `Nat` with explicit `% 2 ^ 64` where the
C++ code uses `uint64_t`; 8-bit channels stay below 256 by construction of
the bit operations, so no truncation is needed for them.
-/

namespace Steganography

/-- `enum class ImageType` from the source. -/
inductive ImageType where
  | kJpeg
  | kPng
  | kUnknown
deriving DecidableEq, Repr

/-- `enum class RetCode` from `steganography_util.hpp`. -/
inductive RetCode where
  | kSuccess
  | kInvalidFileFormat
  | kFileNotFound
  | kInvalidDimensions
deriving DecidableEq, Repr

/-- `kHeaderSize = 8`: number of leading bytes read by the sniffer. -/
def kHeaderSize : Nat := 8

/-- `kPngSignature = 0x89504E470D0A1A0A`. -/
def kPngSignature : Nat := 0x89504E470D0A1A0A

/-- `kJpegSignature = 0xFFD8000000000000`, used both as mask and pattern. -/
def kJpegSignature : Nat := 0xFFD8000000000000

/-- The 8-entry buffer of `GetImageType`: the file's first (up to 8) bytes,
zero-filled to length 8 (`std::vector<char> buffer(kHeaderSize, 0)` keeps
its zero initialisation for bytes a short read does not touch). -/
def headerBuffer (bytes : List Nat) : List Nat :=
  bytes.take kHeaderSize ++ List.replicate (kHeaderSize - bytes.length) 0

/-- The big-endian 64-bit word built by
`word = (word << kByteShift) | static_cast<uint8_t>(c)` over the buffer. -/
def headerWord (bytes : List Nat) : Nat :=
  (headerBuffer bytes).foldl (fun w c => ((w <<< 8) ||| c) % 2 ^ 64) 0

/-- The signature matching at the end of `GetImageType`: exact comparison
with the PNG signature, then the masked comparison
`(word & kJpegSignature) == kJpegSignature`. -/
def classifyWord (word : Nat) : ImageType :=
  if word = kPngSignature then ImageType.kPng
  else if word &&& kJpegSignature = kJpegSignature then ImageType.kJpeg
  else ImageType.kUnknown

/-- `GetImageType`: `none` models a file that does not exist or cannot be
opened (`!ifs.is_open()`); `some bytes` models a readable file's content. -/
def GetImageType (file : Option (List Nat)) : ImageType :=
  match file with
  | none => ImageType.kUnknown
  | some bytes => classifyWord (headerWord bytes)

/-- `boost::gil::rgb8_pixel_t`: three 8-bit channels. -/
structure Rgb8Pixel where
  r : Nat
  g : Nat
  b : Nat
deriving DecidableEq, Repr

/-- A pixel whose channels are genuine 8-bit values. -/
def validPixel (p : Rgb8Pixel) : Prop :=
  p.r < 256 ∧ p.g < 256 ∧ p.b < 256

instance (p : Rgb8Pixel) : Decidable (validPixel p) := by
  unfold validPixel; infer_instance

/-- `kHighNibble = 0xF0`. -/
def kHighNibble : Nat := 0xF0

/-- `kLowNibble = 0x0F`. -/
def kLowNibble : Nat := 0x0F

/-- Per-channel body of `MergePixels`:
`(cover_pix[i] & kHighNibble) | ((secret_pix[i] & kHighNibble) >> 4)`. -/
def mergeChannel (cover secret : Nat) : Nat :=
  (cover &&& kHighNibble) ||| ((secret &&& kHighNibble) >>> 4)

/-- `MergePixels`: the channel transform applied to each of the 3 channels. -/
def MergePixels (cover_pix secret_pix : Rgb8Pixel) : Rgb8Pixel :=
  { r := mergeChannel cover_pix.r secret_pix.r
    g := mergeChannel cover_pix.g secret_pix.g
    b := mergeChannel cover_pix.b secret_pix.b }

/-- Per-channel body of `UnmergePixels`: `(pixel[i] & kLowNibble) << 4`. -/
def unmergeChannel (m : Nat) : Nat :=
  (m &&& kLowNibble) <<< 4

/-- `UnmergePixels`: the channel transform applied to each of the 3 channels. -/
def UnmergePixels (pixel : Rgb8Pixel) : Rgb8Pixel :=
  { r := unmergeChannel pixel.r
    g := unmergeChannel pixel.g
    b := unmergeChannel pixel.b }

/-- `boost::gil::rgb8_image_t`: a pixel grid addressed as `pixels col row`,
mirroring the source's `view(col, row)` access order. -/
structure RgbImage where
  width : Nat
  height : Nat
  pixels : Nat → Nat → Rgb8Pixel

/-- `kBlackPixel(0, 0, 0)` from `Merge`. -/
def kBlackPixel : Rgb8Pixel := ⟨0, 0, 0⟩

/-- The double loop of `Merge`: starting from a copy of the cover, every
in-bounds coordinate of the output is overwritten with `MergePixels` of the
cover pixel and either the secret pixel or, outside the secret's bounds,
the black pixel. Coordinates the loop never visits keep the cover's value. -/
def mergeGrid (cover secret : RgbImage) : RgbImage :=
  { width := cover.width
    height := cover.height
    pixels := fun col row =>
      if row < cover.height ∧ col < cover.width then
        if row ≥ secret.height ∨ col ≥ secret.width then
          MergePixels (cover.pixels col row) kBlackPixel
        else
          MergePixels (cover.pixels col row) (secret.pixels col row)
      else cover.pixels col row }

/-- The double loop of `Unmerge`: every in-bounds coordinate of the output
is `UnmergePixels` of the decoded pixel. -/
def unmergeGrid (img : RgbImage) : RgbImage :=
  { width := img.width
    height := img.height
    pixels := fun col row =>
      if row < img.height ∧ col < img.width then UnmergePixels (img.pixels col row)
      else img.pixels col row }

/-- `std::string::ends_with`, modelled at the character level (byte-exact
for the ASCII extensions involved). -/
def endsWithStr (filename ext : String) : Bool :=
  ext.data.isSuffixOf filename.data

/-- `HasJpegExtension`: case-sensitive `ends_with` test against the four
recognized JPEG extensions. -/
def HasJpegExtension (filename : String) : Bool :=
  [".jpg", ".jpeg", ".JPG", ".JPEG"].any (fun s => endsWithStr filename s)

/-- The environment the orchestrator runs against: the file system (a
file's raw bytes, `none` when the file does not exist or cannot be opened)
and the external codec adapter (`ReadImage`, assumed to succeed on files
that passed the sniffer). -/
structure Env where
  fs : String → Option (List Nat)
  decode : String → ImageType → RgbImage

/-- A file write performed through `WriteImage`: target path, pixel grid,
and the format tag selecting the PNG or JPEG encoder. -/
structure WriteOp where
  path : String
  image : RgbImage
  format : ImageType

/-- `Merge(cover, secret, outfile)`. The second component records the
single `WriteImage` call the function performs, `none` when it returns
before writing. -/
def Merge (env : Env) (cover secret outfile : String) :
    RetCode × Option WriteOp :=
  if env.fs cover = none ∨ env.fs secret = none then
    (RetCode.kFileNotFound, none)
  else if GetImageType (env.fs cover) = ImageType.kUnknown ∨
      GetImageType (env.fs secret) = ImageType.kUnknown then
    (RetCode.kInvalidFileFormat, none)
  else if (env.decode secret (GetImageType (env.fs secret))).height >
        (env.decode cover (GetImageType (env.fs cover))).height ∨
      (env.decode secret (GetImageType (env.fs secret))).width >
        (env.decode cover (GetImageType (env.fs cover))).width then
    (RetCode.kInvalidDimensions, none)
  else
    (RetCode.kSuccess,
      some ⟨outfile,
        mergeGrid (env.decode cover (GetImageType (env.fs cover)))
          (env.decode secret (GetImageType (env.fs secret))),
        ImageType.kPng⟩)

/-- `Unmerge(secret, outfile)`; same write-recording convention as `Merge`. -/
def Unmerge (env : Env) (secret outfile : String) :
    RetCode × Option WriteOp :=
  if env.fs secret = none then
    (RetCode.kFileNotFound, none)
  else if GetImageType (env.fs secret) = ImageType.kUnknown then
    (RetCode.kInvalidFileFormat, none)
  else if HasJpegExtension outfile then
    (RetCode.kSuccess,
      some ⟨outfile, unmergeGrid (env.decode secret (GetImageType (env.fs secret))),
        ImageType.kJpeg⟩)
  else
    (RetCode.kSuccess,
      some ⟨outfile, unmergeGrid (env.decode secret (GetImageType (env.fs secret))),
        ImageType.kPng⟩)

/-! ### Lemmas about the format sniffer -/

theorem classifyWord_of_ne_png (w : Nat) (hpng : w ≠ kPngSignature) :
    classifyWord w ≠ ImageType.kPng ∧
    (classifyWord w = ImageType.kJpeg ↔ w &&& kJpegSignature = kJpegSignature) ∧
    (classifyWord w = ImageType.kUnknown ↔ w &&& kJpegSignature ≠ kJpegSignature) := by
  unfold classifyWord
  rw [if_neg hpng]
  by_cases h : w &&& kJpegSignature = kJpegSignature
  · rw [if_pos h]
    simp [h]
  · rw [if_neg h]
    simp [h]

theorem headerWord_of_short (bytes : List Nat) (h : bytes.length < 8) :
    headerWord bytes % 256 = 0 := by
  unfold headerWord headerBuffer kHeaderSize
  rw [List.take_of_length_le (by omega)]
  obtain ⟨k, hk⟩ : ∃ k, 8 - bytes.length = k + 1 := ⟨7 - bytes.length, by omega⟩
  rw [hk, List.replicate_succ', ← List.append_assoc, List.foldl_append]
  simp only [List.foldl_cons, List.foldl_nil]
  rw [Nat.or_zero, Nat.shiftLeft_eq,
    Nat.mod_mod_of_dvd _ (by norm_num : (256 : ℕ) ∣ 2 ^ 64)]
  norm_num

/-! ### Claims about the format sniffer -/

/-- C2, counterexample: an 8-byte header whose first two bytes are `FF DA`
(top 16 bits not equal to `FF D8`, and not the PNG signature) still
classifies as JPEG, because the code compares `word & 0xFFD8…` against
`0xFFD8…` and `0xDA & 0xD8 = 0xD8`. The claim says every such word yields
`Unknown`. -/
theorem classify_top16_counterexample :
    headerWord [0xFF, 0xDA, 0, 0, 0, 0, 0, 0] ≠ kPngSignature ∧
    headerWord [0xFF, 0xDA, 0, 0, 0, 0, 0, 0] >>> 48 ≠ 0xFFD8 ∧
    GetImageType (some [0xFF, 0xDA, 0, 0, 0, 0, 0, 0]) = ImageType.kJpeg ∧
    GetImageType (some [0xFF, 0xDA, 0, 0, 0, 0, 0, 0]) ≠ ImageType.kUnknown := by
  decide

/-- C2, amended: for every header that is not the PNG signature, classify
returns JPEG exactly when `word &&& 0xFFD8000000000000 =
0xFFD8000000000000` (first byte `FF`, second byte containing all bits of
`D8`), and Unknown exactly otherwise. -/
theorem classify_jpeg_masked (bytes : List Nat)
    (hpng : headerWord bytes ≠ kPngSignature) :
    (GetImageType (some bytes) = ImageType.kJpeg ↔
      headerWord bytes &&& kJpegSignature = kJpegSignature) ∧
    (GetImageType (some bytes) = ImageType.kUnknown ↔
      headerWord bytes &&& kJpegSignature ≠ kJpegSignature) := by
  exact (classifyWord_of_ne_png (headerWord bytes) hpng).2

theorem classify_jpeg_masked_witness :
    headerWord [0xFF, 0xD8, 0xFF, 0xE0, 0x00, 0x10, 0x4A, 0x46] ≠ kPngSignature ∧
    ((GetImageType (some [0xFF, 0xD8, 0xFF, 0xE0, 0x00, 0x10, 0x4A, 0x46]) = ImageType.kJpeg ↔
      headerWord [0xFF, 0xD8, 0xFF, 0xE0, 0x00, 0x10, 0x4A, 0x46] &&& kJpegSignature =
        kJpegSignature) ∧
    (GetImageType (some [0xFF, 0xD8, 0xFF, 0xE0, 0x00, 0x10, 0x4A, 0x46]) = ImageType.kUnknown ↔
      headerWord [0xFF, 0xD8, 0xFF, 0xE0, 0x00, 0x10, 0x4A, 0x46] &&& kJpegSignature ≠
        kJpegSignature)) :=
  ⟨by decide, classify_jpeg_masked [0xFF, 0xD8, 0xFF, 0xE0, 0x00, 0x10, 0x4A, 0x46] (by decide)⟩

/-- C3, counterexample: a 2-byte file `FF D8` has fewer than 8 bytes, yet
classifies as JPEG and not as Unknown: the unread buffer entries stay zero,
so the zero-padded word still matches the JPEG mask. The claim says every
file with fewer than 8 bytes yields Unknown. -/
theorem classify_short_file_counterexample :
    ([0xFF, 0xD8] : List Nat).length < 8 ∧
    GetImageType (some [0xFF, 0xD8]) = ImageType.kJpeg ∧
    GetImageType (some [0xFF, 0xD8]) ≠ ImageType.kUnknown := by
  decide

/-- C3, amended: a file that cannot be opened classifies as Unknown. A file
with fewer than 8 bytes is zero-padded; it never classifies as PNG, it
classifies as JPEG exactly when its zero-padded word matches the JPEG mask
(e.g. it starts with `FF D8`), and as Unknown exactly otherwise. -/
theorem classify_short_or_unopenable (bytes : List Nat) (h : bytes.length < 8) :
    GetImageType none = ImageType.kUnknown ∧
    GetImageType (some bytes) ≠ ImageType.kPng ∧
    (GetImageType (some bytes) = ImageType.kJpeg ↔
      headerWord bytes &&& kJpegSignature = kJpegSignature) ∧
    (GetImageType (some bytes) = ImageType.kUnknown ↔
      headerWord bytes &&& kJpegSignature ≠ kJpegSignature) := by
  have hpng : headerWord bytes ≠ kPngSignature := by
    intro he
    have hm := headerWord_of_short bytes h
    rw [he] at hm
    norm_num [kPngSignature] at hm
  exact ⟨rfl, (classifyWord_of_ne_png (headerWord bytes) hpng).1,
    (classifyWord_of_ne_png (headerWord bytes) hpng).2.1,
    (classifyWord_of_ne_png (headerWord bytes) hpng).2.2⟩

theorem classify_short_or_unopenable_witness :
    ([0x42] : List Nat).length < 8 ∧
    (GetImageType none = ImageType.kUnknown ∧
    GetImageType (some [0x42]) ≠ ImageType.kPng ∧
    (GetImageType (some [0x42]) = ImageType.kJpeg ↔
      headerWord [0x42] &&& kJpegSignature = kJpegSignature) ∧
    (GetImageType (some [0x42]) = ImageType.kUnknown ↔
      headerWord [0x42] &&& kJpegSignature ≠ kJpegSignature)) :=
  ⟨by decide, classify_short_or_unopenable [0x42] (by decide)⟩

/-! ### Channel-level lemmas about the pixel transform -/

theorem and15_eq_mod (x : Nat) : x &&& 15 = x % 16 := by
  have h := Nat.and_pow_two_sub_one_eq_mod x 4
  norm_num at h
  exact h

theorem shifted_secret_lt (s : Nat) : (s &&& 240) >>> 4 < 16 := by
  have h1 : s &&& 240 ≤ 240 := Nat.and_le_right
  rw [Nat.shiftRight_eq_div_pow]
  norm_num
  omega

theorem mergeChannel_low (c s : Nat) : mergeChannel c s &&& 15 = (s &&& 240) >>> 4 := by
  unfold mergeChannel kHighNibble
  rw [Nat.and_distrib_right, Nat.and_assoc]
  have h240 : (240 &&& 15 : Nat) = 0 := by decide
  rw [h240, Nat.and_zero, Nat.zero_or, and15_eq_mod, Nat.mod_eq_of_lt (shifted_secret_lt s)]

theorem small_and_240 : ∀ x < 16, x &&& 240 = 0 := by decide

theorem mergeChannel_high (c s : Nat) : mergeChannel c s &&& 240 = c &&& 240 := by
  unfold mergeChannel kHighNibble
  rw [Nat.and_distrib_right, Nat.and_assoc]
  have h240 : (240 &&& 240 : Nat) = 240 := by decide
  rw [h240, small_and_240 _ (shifted_secret_lt s), Nat.or_zero]

theorem and240_mod16 (s : Nat) : (s &&& 240) % 16 = 0 := by
  rw [← and15_eq_mod, Nat.and_assoc]
  have h240 : (240 &&& 15 : Nat) = 0 := by decide
  rw [h240, Nat.and_zero]

theorem roundtrip_channel (c s : Nat) : unmergeChannel (mergeChannel c s) = s &&& 240 := by
  unfold unmergeChannel kLowNibble
  rw [mergeChannel_low, Nat.shiftRight_eq_div_pow, Nat.shiftLeft_eq]
  norm_num
  exact Nat.div_mul_cancel (Nat.dvd_of_mod_eq_zero (and240_mod16 s))

theorem unmergeChannel_low (m : Nat) : unmergeChannel m &&& 15 = 0 := by
  unfold unmergeChannel kLowNibble
  rw [Nat.shiftLeft_eq, and15_eq_mod]
  norm_num

theorem unmergeChannel_high (m : Nat) : unmergeChannel m >>> 4 = m &&& 15 := by
  unfold unmergeChannel kLowNibble
  rw [Nat.shiftLeft_eq, Nat.shiftRight_eq_div_pow]
  norm_num

/-! ### Claims about the pixel transform -/

/-- C1: for every pair of 8-bit channel values, unmerging a merged pixel
recovers the secret's high nibble with a zero-filled low nibble:
`unmergePixel (mergePixel c s) = s &&& 0xF0` on every channel. -/
theorem unmerge_merge_roundtrip (cp sp : Rgb8Pixel)
    (hc : validPixel cp) (hs : validPixel sp) :
    UnmergePixels (MergePixels cp sp) =
      { r := sp.r &&& 0xF0, g := sp.g &&& 0xF0, b := sp.b &&& 0xF0 } := by
  simp only [UnmergePixels, MergePixels, roundtrip_channel]

theorem unmerge_merge_roundtrip_witness :
    validPixel ⟨0xAB, 0x12, 0xFF⟩ ∧ validPixel ⟨0x34, 0xC7, 0x08⟩ ∧
    UnmergePixels (MergePixels ⟨0xAB, 0x12, 0xFF⟩ ⟨0x34, 0xC7, 0x08⟩) =
      { r := 0x34 &&& 0xF0, g := 0xC7 &&& 0xF0, b := 0x08 &&& 0xF0 } :=
  ⟨by decide, by decide, unmerge_merge_roundtrip ⟨0xAB, 0x12, 0xFF⟩ ⟨0x34, 0xC7, 0x08⟩
    (by decide) (by decide)⟩

/-- C4: merging returns `(c &&& 0xF0) ||| ((s &&& 0xF0) >>> 4)` per channel;
the output's high nibble is the cover's and the output's low nibble is the
secret's high nibble shifted down by 4; each of the 3 channels is produced
from the corresponding input channels alone. -/
theorem merge_pixels_spec (cp sp : Rgb8Pixel)
    (hc : validPixel cp) (hs : validPixel sp) :
    MergePixels cp sp =
      { r := (cp.r &&& 0xF0) ||| ((sp.r &&& 0xF0) >>> 4)
        g := (cp.g &&& 0xF0) ||| ((sp.g &&& 0xF0) >>> 4)
        b := (cp.b &&& 0xF0) ||| ((sp.b &&& 0xF0) >>> 4) } ∧
    (MergePixels cp sp).r &&& 0xF0 = cp.r &&& 0xF0 ∧
    (MergePixels cp sp).g &&& 0xF0 = cp.g &&& 0xF0 ∧
    (MergePixels cp sp).b &&& 0xF0 = cp.b &&& 0xF0 ∧
    (MergePixels cp sp).r &&& 0x0F = (sp.r &&& 0xF0) >>> 4 ∧
    (MergePixels cp sp).g &&& 0x0F = (sp.g &&& 0xF0) >>> 4 ∧
    (MergePixels cp sp).b &&& 0x0F = (sp.b &&& 0xF0) >>> 4 :=
  ⟨rfl, mergeChannel_high cp.r sp.r, mergeChannel_high cp.g sp.g,
    mergeChannel_high cp.b sp.b, mergeChannel_low cp.r sp.r,
    mergeChannel_low cp.g sp.g, mergeChannel_low cp.b sp.b⟩

theorem merge_pixels_spec_witness :
    validPixel ⟨0x12, 0x00, 0xFF⟩ ∧ validPixel ⟨0xA5, 0x7E, 0x01⟩ ∧
    (MergePixels ⟨0x12, 0x00, 0xFF⟩ ⟨0xA5, 0x7E, 0x01⟩ =
      { r := (0x12 &&& 0xF0) ||| ((0xA5 &&& 0xF0) >>> 4)
        g := (0x00 &&& 0xF0) ||| ((0x7E &&& 0xF0) >>> 4)
        b := (0xFF &&& 0xF0) ||| ((0x01 &&& 0xF0) >>> 4) } ∧
    (MergePixels ⟨0x12, 0x00, 0xFF⟩ ⟨0xA5, 0x7E, 0x01⟩).r &&& 0xF0 = 0x12 &&& 0xF0 ∧
    (MergePixels ⟨0x12, 0x00, 0xFF⟩ ⟨0xA5, 0x7E, 0x01⟩).g &&& 0xF0 = 0x00 &&& 0xF0 ∧
    (MergePixels ⟨0x12, 0x00, 0xFF⟩ ⟨0xA5, 0x7E, 0x01⟩).b &&& 0xF0 = 0xFF &&& 0xF0 ∧
    (MergePixels ⟨0x12, 0x00, 0xFF⟩ ⟨0xA5, 0x7E, 0x01⟩).r &&& 0x0F = (0xA5 &&& 0xF0) >>> 4 ∧
    (MergePixels ⟨0x12, 0x00, 0xFF⟩ ⟨0xA5, 0x7E, 0x01⟩).g &&& 0x0F = (0x7E &&& 0xF0) >>> 4 ∧
    (MergePixels ⟨0x12, 0x00, 0xFF⟩ ⟨0xA5, 0x7E, 0x01⟩).b &&& 0x0F = (0x01 &&& 0xF0) >>> 4) :=
  ⟨by decide, by decide, merge_pixels_spec ⟨0x12, 0x00, 0xFF⟩ ⟨0xA5, 0x7E, 0x01⟩
    (by decide) (by decide)⟩

/-- C5: unmerging returns `(m &&& 0x0F) <<< 4` per channel: the input's low
nibble promoted to the output's high nibble, output low nibble zero; each of
the 3 channels is produced from the corresponding input channel alone. -/
theorem unmerge_pixels_spec (p : Rgb8Pixel) (hp : validPixel p) :
    UnmergePixels p =
      { r := (p.r &&& 0x0F) <<< 4
        g := (p.g &&& 0x0F) <<< 4
        b := (p.b &&& 0x0F) <<< 4 } ∧
    (UnmergePixels p).r &&& 0x0F = 0 ∧
    (UnmergePixels p).g &&& 0x0F = 0 ∧
    (UnmergePixels p).b &&& 0x0F = 0 ∧
    (UnmergePixels p).r >>> 4 = p.r &&& 0x0F ∧
    (UnmergePixels p).g >>> 4 = p.g &&& 0x0F ∧
    (UnmergePixels p).b >>> 4 = p.b &&& 0x0F :=
  ⟨rfl, unmergeChannel_low p.r, unmergeChannel_low p.g, unmergeChannel_low p.b,
    unmergeChannel_high p.r, unmergeChannel_high p.g, unmergeChannel_high p.b⟩

theorem unmerge_pixels_spec_witness :
    validPixel ⟨0x9C, 0x40, 0x0F⟩ ∧
    (UnmergePixels ⟨0x9C, 0x40, 0x0F⟩ =
      { r := (0x9C &&& 0x0F) <<< 4
        g := (0x40 &&& 0x0F) <<< 4
        b := (0x0F &&& 0x0F) <<< 4 } ∧
    (UnmergePixels ⟨0x9C, 0x40, 0x0F⟩).r &&& 0x0F = 0 ∧
    (UnmergePixels ⟨0x9C, 0x40, 0x0F⟩).g &&& 0x0F = 0 ∧
    (UnmergePixels ⟨0x9C, 0x40, 0x0F⟩).b &&& 0x0F = 0 ∧
    (UnmergePixels ⟨0x9C, 0x40, 0x0F⟩).r >>> 4 = 0x9C &&& 0x0F ∧
    (UnmergePixels ⟨0x9C, 0x40, 0x0F⟩).g >>> 4 = 0x40 &&& 0x0F ∧
    (UnmergePixels ⟨0x9C, 0x40, 0x0F⟩).b >>> 4 = 0x0F &&& 0x0F) :=
  ⟨by decide, unmerge_pixels_spec ⟨0x9C, 0x40, 0x0F⟩ (by decide)⟩

/-- C10: the merge transform depends only on the high nibbles of its inputs:
two cover/secret pairs agreeing channel-wise on high nibbles merge to the
same pixel, so no low-nibble information flows into the output. -/
theorem merge_pixels_high_nibble_only (cp cp' sp sp' : Rgb8Pixel)
    (hc : validPixel cp) (hc' : validPixel cp')
    (hs : validPixel sp) (hs' : validPixel sp')
    (h1 : cp.r &&& 0xF0 = cp'.r &&& 0xF0) (h2 : cp.g &&& 0xF0 = cp'.g &&& 0xF0)
    (h3 : cp.b &&& 0xF0 = cp'.b &&& 0xF0) (h4 : sp.r &&& 0xF0 = sp'.r &&& 0xF0)
    (h5 : sp.g &&& 0xF0 = sp'.g &&& 0xF0) (h6 : sp.b &&& 0xF0 = sp'.b &&& 0xF0) :
    MergePixels cp sp = MergePixels cp' sp' := by
  simp only [MergePixels, mergeChannel, kHighNibble]
  rw [h1, h2, h3, h4, h5, h6]

theorem merge_pixels_high_nibble_only_witness :
    validPixel ⟨0xA1, 0xB2, 0xC3⟩ ∧ validPixel ⟨0xAF, 0xB0, 0xCC⟩ ∧
    validPixel ⟨0x15, 0x26, 0x37⟩ ∧ validPixel ⟨0x1F, 0x20, 0x33⟩ ∧
    MergePixels ⟨0xA1, 0xB2, 0xC3⟩ ⟨0x15, 0x26, 0x37⟩ =
      MergePixels ⟨0xAF, 0xB0, 0xCC⟩ ⟨0x1F, 0x20, 0x33⟩ :=
  ⟨by decide, by decide, by decide, by decide,
    merge_pixels_high_nibble_only ⟨0xA1, 0xB2, 0xC3⟩ ⟨0xAF, 0xB0, 0xCC⟩
      ⟨0x15, 0x26, 0x37⟩ ⟨0x1F, 0x20, 0x33⟩ (by decide) (by decide) (by decide)
      (by decide) (by decide) (by decide) (by decide) (by decide) (by decide)
      (by decide)⟩

/-! ### Orchestrator lemmas and test environment -/

theorem mergeChannel_black (x : Nat) : mergeChannel x 0 = x &&& 240 := by
  unfold mergeChannel kHighNibble
  simp

theorem mergeGrid_pixels_in_bounds (cover secret : RgbImage) (row col : Nat)
    (hr : row < cover.height) (hc : col < cover.width) :
    (mergeGrid cover secret).pixels col row =
      if row ≥ secret.height ∨ col ≥ secret.width then
        MergePixels (cover.pixels col row) kBlackPixel
      else MergePixels (cover.pixels col row) (secret.pixels col row) := by
  simp only [mergeGrid]
  rw [if_pos ⟨hr, hc⟩]

/-- First 8 bytes of a PNG file: the PNG signature. -/
def pngHeaderBytes : List Nat := [0x89, 0x50, 0x4E, 0x47, 0x0D, 0x0A, 0x1A, 0x0A]

/-- First 8 bytes of a JFIF JPEG file. -/
def jpegHeaderBytes : List Nat := [0xFF, 0xD8, 0xFF, 0xE0, 0x00, 0x10, 0x4A, 0x46]

/-- A 4×4 all-black cover image. -/
def coverGrid : RgbImage := ⟨4, 4, fun _ _ => ⟨0, 0, 0⟩⟩

/-- A 2×2 all-white secret image. -/
def secretGrid : RgbImage := ⟨2, 2, fun _ _ => ⟨0xFF, 0xFF, 0xFF⟩⟩

/-- A 6×3 secret image that is wider than the 4×4 cover. -/
def bigSecretGrid : RgbImage := ⟨6, 3, fun _ _ => ⟨1, 2, 3⟩⟩

/-- The merged output of the 4×4 cover and the 2×2 secret. -/
def mergedGrid : RgbImage := mergeGrid coverGrid secretGrid

/-- A concrete environment: a PNG cover, a JPEG secret, an oversized PNG
secret, and a PNG merged file, with fixed decoded grids. -/
def testEnv : Env :=
  { fs := fun p =>
      if p = "cover.png" then some pngHeaderBytes
      else if p = "secret.jpg" then some jpegHeaderBytes
      else if p = "big_secret.png" then some pngHeaderBytes
      else if p = "merged.png" then some pngHeaderBytes
      else none
    decode := fun p _ =>
      if p = "cover.png" then coverGrid
      else if p = "secret.jpg" then secretGrid
      else if p = "big_secret.png" then bigSecretGrid
      else mergedGrid }

/-! ### Claims about the orchestrator -/

/-- C6: for existing inputs that classify as JPEG or PNG, `Merge` returns
`kInvalidDimensions` exactly when the secret grid is taller or wider than
the cover grid (equality proceeds), and in that case no write occurs. -/
theorem merge_invalid_dimensions_iff (env : Env) (cover secret outfile : String)
    (h1 : env.fs cover ≠ none) (h2 : env.fs secret ≠ none)
    (h3 : GetImageType (env.fs cover) ≠ ImageType.kUnknown)
    (h4 : GetImageType (env.fs secret) ≠ ImageType.kUnknown) :
    ((Merge env cover secret outfile).1 = RetCode.kInvalidDimensions ↔
      ((env.decode secret (GetImageType (env.fs secret))).height >
        (env.decode cover (GetImageType (env.fs cover))).height ∨
       (env.decode secret (GetImageType (env.fs secret))).width >
        (env.decode cover (GetImageType (env.fs cover))).width)) ∧
    ((Merge env cover secret outfile).1 = RetCode.kInvalidDimensions →
      (Merge env cover secret outfile).2 = none) := by
  unfold Merge
  rw [if_neg (by simp [h1, h2]), if_neg (by simp [h3, h4])]
  by_cases h : (env.decode secret (GetImageType (env.fs secret))).height >
        (env.decode cover (GetImageType (env.fs cover))).height ∨
      (env.decode secret (GetImageType (env.fs secret))).width >
        (env.decode cover (GetImageType (env.fs cover))).width
  · rw [if_pos h]
    simp [h]
  · rw [if_neg h]
    simp [h]

theorem merge_invalid_dimensions_iff_witness :
    testEnv.fs "cover.png" ≠ none ∧ testEnv.fs "big_secret.png" ≠ none ∧
    GetImageType (testEnv.fs "cover.png") ≠ ImageType.kUnknown ∧
    GetImageType (testEnv.fs "big_secret.png") ≠ ImageType.kUnknown ∧
    (((Merge testEnv "cover.png" "big_secret.png" "merged.png").1 =
        RetCode.kInvalidDimensions ↔
      ((testEnv.decode "big_secret.png" (GetImageType (testEnv.fs "big_secret.png"))).height >
        (testEnv.decode "cover.png" (GetImageType (testEnv.fs "cover.png"))).height ∨
       (testEnv.decode "big_secret.png" (GetImageType (testEnv.fs "big_secret.png"))).width >
        (testEnv.decode "cover.png" (GetImageType (testEnv.fs "cover.png"))).width)) ∧
    ((Merge testEnv "cover.png" "big_secret.png" "merged.png").1 =
        RetCode.kInvalidDimensions →
      (Merge testEnv "cover.png" "big_secret.png" "merged.png").2 = none)) :=
  ⟨by decide, by decide, by decide, by decide,
    merge_invalid_dimensions_iff testEnv "cover.png" "big_secret.png" "merged.png"
      (by decide) (by decide) (by decide) (by decide)⟩

/-- C7: a successful `Merge` writes a grid with exactly the cover's
dimensions; inside the grid, coordinates outside the secret's bounds hold
the cover pixel merged with black (each channel `cover &&& 0xF0`), and
coordinates inside the secret's bounds hold the cover pixel merged with the
secret pixel at the same coordinate. -/
theorem merge_success_output (env : Env) (cover secret outfile : String)
    (ci si : RgbImage)
    (hci : ci = env.decode cover (GetImageType (env.fs cover)))
    (hsi : si = env.decode secret (GetImageType (env.fs secret)))
    (h1 : env.fs cover ≠ none) (h2 : env.fs secret ≠ none)
    (h3 : GetImageType (env.fs cover) ≠ ImageType.kUnknown)
    (h4 : GetImageType (env.fs secret) ≠ ImageType.kUnknown)
    (hh : si.height ≤ ci.height) (hw : si.width ≤ ci.width) :
    Merge env cover secret outfile =
      (RetCode.kSuccess, some ⟨outfile, mergeGrid ci si, ImageType.kPng⟩) ∧
    (mergeGrid ci si).width = ci.width ∧
    (mergeGrid ci si).height = ci.height ∧
    (∀ row col, row < (mergeGrid ci si).height → col < (mergeGrid ci si).width →
      ((row ≥ si.height ∨ col ≥ si.width →
        (mergeGrid ci si).pixels col row = MergePixels (ci.pixels col row) kBlackPixel ∧
        ((mergeGrid ci si).pixels col row).r = (ci.pixels col row).r &&& 0xF0 ∧
        ((mergeGrid ci si).pixels col row).g = (ci.pixels col row).g &&& 0xF0 ∧
        ((mergeGrid ci si).pixels col row).b = (ci.pixels col row).b &&& 0xF0) ∧
       (row < si.height → col < si.width →
        (mergeGrid ci si).pixels col row =
          MergePixels (ci.pixels col row) (si.pixels col row)))) := by
  refine ⟨?_, rfl, rfl, ?_⟩
  · unfold Merge
    rw [if_neg (by simp [h1, h2]), if_neg (by simp [h3, h4]),
      if_neg (by rw [← hci, ← hsi]; omega)]
    rw [hci, hsi]
  · intro row col hr hc
    have hr' : row < ci.height := hr
    have hc' : col < ci.width := hc
    constructor
    · intro hout
      rw [mergeGrid_pixels_in_bounds ci si row col hr' hc', if_pos hout]
      refine ⟨rfl, ?_, ?_, ?_⟩ <;>
        exact mergeChannel_black _
    · intro hrow hcol
      rw [mergeGrid_pixels_in_bounds ci si row col hr' hc',
        if_neg (by omega)]

theorem merge_success_output_witness :
    coverGrid = testEnv.decode "cover.png" (GetImageType (testEnv.fs "cover.png")) ∧
    secretGrid = testEnv.decode "secret.jpg" (GetImageType (testEnv.fs "secret.jpg")) ∧
    testEnv.fs "cover.png" ≠ none ∧ testEnv.fs "secret.jpg" ≠ none ∧
    GetImageType (testEnv.fs "cover.png") ≠ ImageType.kUnknown ∧
    GetImageType (testEnv.fs "secret.jpg") ≠ ImageType.kUnknown ∧
    secretGrid.height ≤ coverGrid.height ∧ secretGrid.width ≤ coverGrid.width ∧
    (Merge testEnv "cover.png" "secret.jpg" "merged.png" =
      (RetCode.kSuccess, some ⟨"merged.png", mergeGrid coverGrid secretGrid, ImageType.kPng⟩) ∧
    (mergeGrid coverGrid secretGrid).width = coverGrid.width ∧
    (mergeGrid coverGrid secretGrid).height = coverGrid.height ∧
    (∀ row col, row < (mergeGrid coverGrid secretGrid).height →
      col < (mergeGrid coverGrid secretGrid).width →
      ((row ≥ secretGrid.height ∨ col ≥ secretGrid.width →
        (mergeGrid coverGrid secretGrid).pixels col row =
          MergePixels (coverGrid.pixels col row) kBlackPixel ∧
        ((mergeGrid coverGrid secretGrid).pixels col row).r =
          (coverGrid.pixels col row).r &&& 0xF0 ∧
        ((mergeGrid coverGrid secretGrid).pixels col row).g =
          (coverGrid.pixels col row).g &&& 0xF0 ∧
        ((mergeGrid coverGrid secretGrid).pixels col row).b =
          (coverGrid.pixels col row).b &&& 0xF0) ∧
       (row < secretGrid.height → col < secretGrid.width →
        (mergeGrid coverGrid secretGrid).pixels col row =
          MergePixels (coverGrid.pixels col row) (secretGrid.pixels col row))))) :=
  ⟨rfl, rfl, by decide, by decide, by decide, by decide, by decide, by decide,
    merge_success_output testEnv "cover.png" "secret.jpg" "merged.png"
      coverGrid secretGrid rfl rfl (by decide) (by decide) (by decide) (by decide)
      (by decide) (by decide)⟩

/-- C8: `Merge` succeeds exactly when it performs a write, and every write
it performs targets `outfile` with the PNG encoder, whatever the out-path's
extension and the input formats. -/
theorem merge_writes_png (env : Env) (cover secret outfile : String) :
    ((Merge env cover secret outfile).1 = RetCode.kSuccess ↔
      ((Merge env cover secret outfile).2).isSome = true) ∧
    ∀ wr : WriteOp, (Merge env cover secret outfile).2 = some wr →
      wr.path = outfile ∧ wr.format = ImageType.kPng := by
  unfold Merge
  split
  · exact ⟨by simp, fun wr hwr => by simp at hwr⟩
  · split
    · exact ⟨by simp, fun wr hwr => by simp at hwr⟩
    · split
      · exact ⟨by simp, fun wr hwr => by simp at hwr⟩
      · refine ⟨by simp, fun wr hwr => ?_⟩
        simp only [Option.some.injEq] at hwr
        subst hwr
        exact ⟨rfl, rfl⟩

/-- The write performed by the successful `Merge` of the test environment,
with a deliberately non-PNG out-path extension. -/
def mergedWrite : WriteOp := ⟨"merged.jpg", mergeGrid coverGrid secretGrid, ImageType.kPng⟩

theorem merge_writes_png_witness :
    (Merge testEnv "cover.png" "secret.jpg" "merged.jpg").2 = some mergedWrite ∧
    ((Merge testEnv "cover.png" "secret.jpg" "merged.jpg").1 = RetCode.kSuccess ↔
      ((Merge testEnv "cover.png" "secret.jpg" "merged.jpg").2).isSome = true) ∧
    (mergedWrite.path = "merged.jpg" ∧ mergedWrite.format = ImageType.kPng) :=
  ⟨rfl, (merge_writes_png testEnv "cover.png" "secret.jpg" "merged.jpg").1,
    (merge_writes_png testEnv "cover.png" "secret.jpg" "merged.jpg").2 mergedWrite rfl⟩

/-- C9: every write performed by `Unmerge` targets `outfile`, with the JPEG
encoder exactly when `outfile` ends with one of the case-sensitive
extensions `.jpg`, `.jpeg`, `.JPG`, `.JPEG`, and with the PNG encoder for
every other out-path. -/
theorem unmerge_output_format (env : Env) (secret outfile : String) (wr : WriteOp)
    (hwr : (Unmerge env secret outfile).2 = some wr) :
    wr.path = outfile ∧
    (wr.format = ImageType.kJpeg ↔
      (endsWithStr outfile ".jpg" = true ∨ endsWithStr outfile ".jpeg" = true ∨
       endsWithStr outfile ".JPG" = true ∨ endsWithStr outfile ".JPEG" = true)) ∧
    (wr.format = ImageType.kPng ↔
      ¬(endsWithStr outfile ".jpg" = true ∨ endsWithStr outfile ".jpeg" = true ∨
        endsWithStr outfile ".JPG" = true ∨ endsWithStr outfile ".JPEG" = true)) := by
  have hext : HasJpegExtension outfile = true ↔
      (endsWithStr outfile ".jpg" = true ∨ endsWithStr outfile ".jpeg" = true ∨
       endsWithStr outfile ".JPG" = true ∨ endsWithStr outfile ".JPEG" = true) := by
    simp [HasJpegExtension]
  unfold Unmerge at hwr
  split at hwr
  · simp at hwr
  · split at hwr
    · simp at hwr
    · split at hwr
      case isTrue hj =>
        simp only [Option.some.injEq] at hwr
        subst hwr
        have he := hext.mp hj
        refine ⟨rfl, ?_, ?_⟩ <;> simp [he]
      case isFalse hj =>
        simp only [Option.some.injEq] at hwr
        subst hwr
        have he : ¬(endsWithStr outfile ".jpg" = true ∨ endsWithStr outfile ".jpeg" = true ∨
            endsWithStr outfile ".JPG" = true ∨ endsWithStr outfile ".JPEG" = true) :=
          fun hd => hj (hext.mpr hd)
        refine ⟨rfl, ?_, ?_⟩ <;> simp [he]

/-- The write performed by `Unmerge` of the test environment's merged file
to an out-path whose extension matches none of the four JPEG extensions
(mixed case), hence PNG. -/
def unmergedWrite : WriteOp := ⟨"recovered.Jpg", unmergeGrid mergedGrid, ImageType.kPng⟩

theorem unmerge_output_format_witness :
    (Unmerge testEnv "merged.png" "recovered.Jpg").2 = some unmergedWrite ∧
    (unmergedWrite.path = "recovered.Jpg" ∧
    (unmergedWrite.format = ImageType.kJpeg ↔
      (endsWithStr "recovered.Jpg" ".jpg" = true ∨ endsWithStr "recovered.Jpg" ".jpeg" = true ∨
       endsWithStr "recovered.Jpg" ".JPG" = true ∨ endsWithStr "recovered.Jpg" ".JPEG" = true)) ∧
    (unmergedWrite.format = ImageType.kPng ↔
      ¬(endsWithStr "recovered.Jpg" ".jpg" = true ∨ endsWithStr "recovered.Jpg" ".jpeg" = true ∨
        endsWithStr "recovered.Jpg" ".JPG" = true ∨ endsWithStr "recovered.Jpg" ".JPEG" = true))) :=
  ⟨rfl, unmerge_output_format testEnv "merged.png" "recovered.Jpg" unmergedWrite rfl⟩

end Steganography
